import Mathlib

/-
Verification of the lttng-tools relay-daemon ctf-trace module and of the
TSDL identifier escaping of the sessiond metadata generator.

The definitions below are a shallow embedding of the C/C++ sources:
  * the `ctf_trace` object model, its reference counting
    (`urcu_ref_get_unless_zero`), lookup-or-create, close, release and
    viewer-metadata-stream accessors come from relayd's ctf-trace
    translation unit;
  * `escape_tsdl_identifier` comes from the sessiond TSDL trace-class
    visitor;
  * the viewer session attach / detach protocol comes from relayd's
    viewer-session translation unit;
  * operations whose bodies live in translation units that are not part
    of the excerpt (stream close, viewer-stream acquisition) are
    modelled from the specification and say so in their doc comments.

Machine integers are modelled as `Nat`; the single place where 64-bit
wrap-around is semantically relevant (the process-wide trace-id counter,
a C `uint64_t`) reduces modulo `u64Mod = 2 ^ 64`.
-/

/-! Basic reference-counting primitive (liburcu). -/

/-- Reference acquisition used by weak lookups: atomic increment-unless-zero
(`urcu_ref_get_unless_zero`).  Returns whether the acquisition succeeded
together with the updated count; when the count is zero it fails and the
count is left at zero. -/
def urcu_ref_get_unless_zero (ref : Nat) : Bool × Nat :=
  if ref = 0 then (false, ref) else (true, ref + 1)

/-! The ctf_trace object model (relayd). -/

/-- Relay stream as far as the ctf-trace unit observes it: an identifier and
the close-request mark set by `try_stream_close`. -/
structure relay_stream where
  sid : Nat
  close_requested : Bool
  deriving DecidableEq, Repr

/-- Viewer stream as far as the ctf-trace unit observes it: an identifier and
its reference count. -/
structure relay_viewer_stream where
  vid : Nat
  refcount : Nat
  deriving DecidableEq, Repr

/-- The `struct ctf_trace` of relayd.  `path` and `session` are nullable
pointers in C and are therefore `Option`s here; `node_in_session_ht` records
whether the trace's intrusive node is currently inserted in its session's
`ctf_traces_ht`. -/
structure ctf_trace where
  tid : Nat
  path : Option String
  session : Option Nat
  refcount : Nat
  stream_list : List relay_stream
  viewer_metadata_stream : Option relay_viewer_stream
  node_in_session_ht : Bool
  deriving DecidableEq, Repr

/-- The `ctf_trace_get` weak-lookup acquisition: succeed and increment the
reference count unless it is already zero. -/
def ctf_trace_get (t : ctf_trace) : Bool × ctf_trace :=
  let r := urcu_ref_get_unless_zero t.refcount
  (r.1, { t with refcount := r.2 })

/-- Modelled from the spec: `try_stream_close` lives in the stream
translation unit, which is not part of the excerpt.  Per the specification's
stream state machine it initiates the transition of the stream to the
Closing state; on a stream already marked for closing it has no further
effect (best-effort, idempotent close). -/
def try_stream_close (s : relay_stream) : relay_stream :=
  { s with close_requested := true }

/-- The `ctf_trace_close` operation: walk the trace's stream list invoking
`try_stream_close` on every linked stream, and return 0.  No reference on
the trace itself is taken or dropped. -/
def ctf_trace_close (t : ctf_trace) : Int × ctf_trace :=
  (0, { t with stream_list := t.stream_list.map try_stream_close })

/-- Modelled from the spec: `viewer_stream_get` lives in the viewer-stream
translation unit, which is not part of the excerpt.  Per the specification
it is the refcount substrate's try-acquire applied to a viewer stream:
increment-unless-zero. -/
def viewer_stream_get (v : relay_viewer_stream) : Bool × relay_viewer_stream :=
  let r := urcu_ref_get_unless_zero v.refcount
  (r.1, { v with refcount := r.2 })

/-- The `ctf_trace_get_viewer_metadata_stream` accessor: dereference the
trace's published viewer metadata stream; if none is published return NULL,
otherwise try to acquire a reference on it, returning NULL when its count
already reached zero.  The trace itself is returned unmodified. -/
def ctf_trace_get_viewer_metadata_stream (t : ctf_trace) :
    Option relay_viewer_stream × ctf_trace :=
  match t.viewer_metadata_stream with
  | none => (none, t)
  | some vstream =>
    let r := viewer_stream_get vstream
    if r.1 then (some r.2, t) else (none, t)

/-! Claim theorems for the operations above. -/

/-- C3: `ctf_trace_get` (try_acquire on a weak lookup) returns a strong
reference exactly when the reference count was strictly positive before the
call; on a zero count it fails and leaves the count (and the whole trace)
untouched, so the caller must treat the object as absent. -/
theorem ctf_trace_get_try_acquire_semantics (t : ctf_trace) :
    ((ctf_trace_get t).1 = true ↔ 0 < t.refcount) ∧
    ((ctf_trace_get t).1 = true →
      (ctf_trace_get t).2 = { t with refcount := t.refcount + 1 }) ∧
    (t.refcount = 0 → ctf_trace_get t = (false, t)) := by
  refine ⟨?_, ?_, ?_⟩
  · constructor
    · intro h
      by_contra hc
      have hz : t.refcount = 0 := by omega
      simp [ctf_trace_get, urcu_ref_get_unless_zero, hz] at h
    · intro h
      have hz : t.refcount ≠ 0 := by omega
      simp [ctf_trace_get, urcu_ref_get_unless_zero, hz]
  · intro h
    have hz : t.refcount ≠ 0 := by
      intro hz
      simp [ctf_trace_get, urcu_ref_get_unless_zero, hz] at h
    simp [ctf_trace_get, urcu_ref_get_unless_zero, hz]
  · intro hz
    cases t
    simp_all [ctf_trace_get, urcu_ref_get_unless_zero]

/-- Concrete instantiation of the C3 theorem on a trace whose count is
zero. -/
theorem ctf_trace_get_try_acquire_semantics_witness :
    (ctf_trace.mk 1 none (some 1) 0 [] none true).refcount = 0 ∧
    ctf_trace_get (ctf_trace.mk 1 none (some 1) 0 [] none true) =
      (false, ctf_trace.mk 1 none (some 1) 0 [] none true) :=
  ⟨rfl, (ctf_trace_get_try_acquire_semantics
      (ctf_trace.mk 1 none (some 1) 0 [] none true)).2.2 rfl⟩

/-- C5: `ctf_trace_close` marks every stream currently linked in the trace's
stream list for closing, always returns 0, is idempotent, and does not alter
the trace's own reference count. -/
theorem ctf_trace_close_infallible_idempotent (t : ctf_trace) :
    (ctf_trace_close t).1 = 0 ∧
    (ctf_trace_close t).2.stream_list = t.stream_list.map try_stream_close ∧
    ctf_trace_close (ctf_trace_close t).2 = ctf_trace_close t ∧
    (ctf_trace_close t).2.refcount = t.refcount := by
  refine ⟨rfl, rfl, ?_, rfl⟩
  have h : ∀ s, try_stream_close (try_stream_close s) = try_stream_close s :=
    fun _ => rfl
  simp [ctf_trace_close, List.map_map, Function.comp, h]

/-- C9: `ctf_trace_get_viewer_metadata_stream` returns NULL when no viewer
metadata stream is published; when one is published it hands out a strong
reference obtained by increment-unless-zero (hence NULL again if the
published stream's count already dropped to zero), and the trace itself is
left unmodified in every case. -/
theorem ctf_trace_get_viewer_metadata_stream_semantics (t : ctf_trace) :
    (t.viewer_metadata_stream = none →
      ctf_trace_get_viewer_metadata_stream t = (none, t)) ∧
    (∀ v, t.viewer_metadata_stream = some v → v.refcount = 0 →
      ctf_trace_get_viewer_metadata_stream t = (none, t)) ∧
    (∀ v, t.viewer_metadata_stream = some v → 0 < v.refcount →
      ctf_trace_get_viewer_metadata_stream t =
        (some { v with refcount := v.refcount + 1 }, t)) := by
  refine ⟨?_, ?_, ?_⟩
  · intro h
    simp [ctf_trace_get_viewer_metadata_stream, h]
  · intro v hv hz
    simp [ctf_trace_get_viewer_metadata_stream, hv, viewer_stream_get,
      urcu_ref_get_unless_zero, hz]
  · intro v hv hpos
    have hz : v.refcount ≠ 0 := by omega
    simp [ctf_trace_get_viewer_metadata_stream, hv, viewer_stream_get,
      urcu_ref_get_unless_zero, hz]

/-- Concrete instantiation of the C9 theorem: a trace with a published
viewer metadata stream of refcount 2 hands out that stream with count 3. -/
theorem ctf_trace_get_viewer_metadata_stream_semantics_witness :
    (ctf_trace.mk 7 none (some 1) 1 [] (some (relay_viewer_stream.mk 3 2))
        true).viewer_metadata_stream = some (relay_viewer_stream.mk 3 2) ∧
    0 < (relay_viewer_stream.mk 3 2).refcount ∧
    ctf_trace_get_viewer_metadata_stream
        (ctf_trace.mk 7 none (some 1) 1 [] (some (relay_viewer_stream.mk 3 2))
          true) =
      (some (relay_viewer_stream.mk 3 3),
        ctf_trace.mk 7 none (some 1) 1 [] (some (relay_viewer_stream.mk 3 2))
          true) :=
  ⟨rfl, by decide,
    (ctf_trace_get_viewer_metadata_stream_semantics
        (ctf_trace.mk 7 none (some 1) 1 []
          (some (relay_viewer_stream.mk 3 2)) true)).2.2
      (relay_viewer_stream.mk 3 2) rfl (by decide)⟩

/-! TSDL identifier escaping (sessiond trace-class visitor). -/

/-- The fixed whitelist of reserved CTF role names (`safe_tsdl_identifiers`
in the visitor source): these identifiers pass through the escaping
unchanged because historical readers expect them without a prepended
underscore. -/
def safe_tsdl_identifiers : List String :=
  ["stream_id", "packet_size", "content_size", "id", "v", "timestamp",
   "events_discarded", "packet_seq_num", "timestamp_begin", "timestamp_end",
   "cpu_id", "magic", "uuid", "stream_instance_id"]

/-- Character replacement performed by the escaping loop: any character that
is not ASCII-alphanumeric (C-locale isalnum) and not an underscore becomes
an underscore; all other characters are kept. -/
def escape_tsdl_char (c : Char) : Char :=
  if !c.isAlphanum && c != '_' then '_' else c

/-- Error raised by the escaping function on a 0-length identifier
(`LTTNG_THROW_ERROR` in the source). -/
inductive tsdl_error where
  | invalidIdentifier
  deriving DecidableEq, Repr

/-- The `escape_tsdl_identifier` function: reject the empty identifier,
pass whitelisted identifiers through unchanged, and otherwise prepend an
underscore and replace every illegal character by an underscore. -/
def escape_tsdl_identifier (original_identifier : String) :
    Except tsdl_error String :=
  if original_identifier.length = 0 then .error .invalidIdentifier
  else if safe_tsdl_identifiers.contains original_identifier then
    .ok original_identifier
  else
    .ok (String.mk ('_' :: original_identifier.data.map escape_tsdl_char))

/-- Sample inputs of scenario S1 of the specification. -/
def tsdl_sample_in : String := "my field!"

/-- Expected escaped form of the S1 sample input. -/
def tsdl_sample_out : String := "_my_field_"

/-- The whitelisted S1 sample input. -/
def tsdl_sample_uuid : String := "uuid"

/-- Every character produced by the escaping loop is ASCII-alphanumeric or
an underscore. -/
theorem escape_tsdl_char_legal (c : Char) :
    (escape_tsdl_char c).isAlphanum = true ∨ escape_tsdl_char c = '_' := by
  by_cases hA : c.isAlphanum
  · left
    simp [escape_tsdl_char, hA]
  · by_cases hU : c = '_'
    · right
      simp [escape_tsdl_char, hU]
    · right
      simp [escape_tsdl_char, hA, hU]

/-- C7: `escape_tsdl_identifier` returns whitelisted identifiers unchanged;
it fails with `invalidIdentifier` exactly on the empty string; any other
identifier is escaped to an underscore followed by the character-wise
replacement, so the result starts with an underscore and consists only of
ASCII-alphanumeric characters and underscores; and on the S1 samples it
maps "my field!" to "_my_field_" and leaves "uuid" unchanged. -/
theorem escape_tsdl_identifier_spec :
    (∀ s, s ∈ safe_tsdl_identifiers → escape_tsdl_identifier s = .ok s) ∧
    (∀ s, escape_tsdl_identifier s = .error .invalidIdentifier ↔
      s.length = 0) ∧
    (∀ s, s.length ≠ 0 → s ∉ safe_tsdl_identifiers →
      escape_tsdl_identifier s =
        .ok (String.mk ('_' :: s.data.map escape_tsdl_char)) ∧
      ∀ c ∈ '_' :: s.data.map escape_tsdl_char,
        c.isAlphanum = true ∨ c = '_') ∧
    escape_tsdl_identifier tsdl_sample_in = .ok tsdl_sample_out ∧
    escape_tsdl_identifier tsdl_sample_uuid = .ok tsdl_sample_uuid := by
  refine ⟨?_, ?_, ?_, rfl, rfl⟩
  · intro s hs
    have hlen : s.length ≠ 0 := by
      fin_cases hs <;> decide
    simp [escape_tsdl_identifier, hlen, hs]
  · intro s
    constructor
    · intro h
      by_contra hlen
      by_cases hin : s ∈ safe_tsdl_identifiers <;>
        simp [escape_tsdl_identifier, hlen, hin] at h
    · intro h
      simp [escape_tsdl_identifier, h]
  · intro s hlen hmem
    refine ⟨by simp [escape_tsdl_identifier, hlen, hmem], ?_⟩
    intro c hc'
    rcases List.mem_cons.mp hc' with rfl | hmm
    · right
      rfl
    · obtain ⟨c0, _, rfl⟩ := List.mem_map.mp hmm
      exact escape_tsdl_char_legal c0

/-- Concrete instantiation of the C7 theorem: the whitelist clause at
"uuid" and the escaping clause at "my field!". -/
theorem escape_tsdl_identifier_spec_witness :
    (tsdl_sample_uuid ∈ safe_tsdl_identifiers ∧
      escape_tsdl_identifier tsdl_sample_uuid = .ok tsdl_sample_uuid) ∧
    (tsdl_sample_in.length ≠ 0 ∧ tsdl_sample_in ∉ safe_tsdl_identifiers ∧
      (escape_tsdl_identifier tsdl_sample_in =
          .ok (String.mk ('_' :: tsdl_sample_in.data.map escape_tsdl_char)) ∧
        ∀ c ∈ '_' :: tsdl_sample_in.data.map escape_tsdl_char,
          c.isAlphanum = true ∨ c = '_')) :=
  ⟨⟨by decide, escape_tsdl_identifier_spec.1 tsdl_sample_uuid (by decide)⟩,
   ⟨by decide, by decide,
     escape_tsdl_identifier_spec.2.2.1 tsdl_sample_in (by decide)
       (by decide)⟩⟩

/-! Construction order inside ctf_trace_create (success path). -/

/-- Primitive steps of `ctf_trace_create`'s success path, one constructor
per source statement, in source order: allocation, refcount initialization
(`urcu_ref_init`), session acquisition, the stores of the session and path
fields, stream-list initialization, the id assignment under the counter
mutex, hash-node initialization, the redundant second session store, the
two mutex initializations, and finally publication into the session's
trace table (`lttng_ht_add_str`). -/
inductive create_op where
  | alloc
  | refInit
  | sessionGet
  | setSession
  | setPath
  | initStreamList
  | setId
  | nodeInit
  | setSessionAgain
  | lockInit
  | streamListLockInit
  | htAddStr
  deriving DecidableEq, Repr

/-- Observable construction state of a `ctf_trace` while `ctf_trace_create`
runs: which fields have been populated and whether the trace has been
published into the session's table. -/
structure create_state where
  allocated : Bool
  ref_initialized : Bool
  session_populated : Bool
  path_populated : Bool
  stream_list_initialized : Bool
  id_populated : Bool
  node_initialized : Bool
  locks_initialized : Bool
  published : Bool
  deriving DecidableEq, Repr

/-- Construction state right after `zmalloc` (everything zeroed). -/
def create_state.zeroed : create_state :=
  ⟨false, false, false, false, false, false, false, false, false⟩

/-- Effect of one `ctf_trace_create` statement on the construction state. -/
def create_step (s : create_state) (op : create_op) : create_state :=
  match op with
  | .alloc => { s with allocated := true }
  | .refInit => { s with ref_initialized := true }
  | .sessionGet => s
  | .setSession => { s with session_populated := true }
  | .setPath => { s with path_populated := true }
  | .initStreamList => { s with stream_list_initialized := true }
  | .setId => { s with id_populated := true }
  | .nodeInit => { s with node_initialized := true }
  | .setSessionAgain => { s with session_populated := true }
  | .lockInit => { s with locks_initialized := true }
  | .streamListLockInit => { s with locks_initialized := true }
  | .htAddStr => { s with published := true }

/-- The success-path statement sequence of `ctf_trace_create`, in the order
written in the source. -/
def ctf_trace_create_ops : List create_op :=
  [.alloc, .refInit, .sessionGet, .setSession, .setPath, .initStreamList,
   .setId, .nodeInit, .setSessionAgain, .lockInit, .streamListLockInit,
   .htAddStr]

/-- Construction state after executing a prefix of the create sequence. -/
def run_create (ops : List create_op) : create_state :=
  ops.foldl create_step create_state.zeroed

/-- Fields that must be populated before the trace may become reachable:
the refcount and all immutable fields (id, path, session link, embedded
hash node). -/
def create_state.fully_populated (s : create_state) : Bool :=
  s.ref_initialized && s.id_populated && s.path_populated &&
    s.session_populated && s.node_initialized

/-- C4: at every prefix of `ctf_trace_create`'s success path, if the trace
has been published into the session's table then its refcount and all of
its immutable fields (id, path, session link, embedded node) are already
populated — publication is the last statement, so no lookup can observe a
half-constructed trace. -/
theorem ctf_trace_create_publish_after_population (k : Nat) :
    (run_create (ctf_trace_create_ops.take k)).published = true →
    (run_create (ctf_trace_create_ops.take k)).fully_populated = true := by
  have hall : ∀ m, m ≤ 12 →
      ((run_create (ctf_trace_create_ops.take m)).published = true →
        (run_create (ctf_trace_create_ops.take m)).fully_populated = true) := by
    decide
  by_cases hk : k ≤ 12
  · exact hall k hk
  · have hlen : ctf_trace_create_ops.length ≤ k := by
      simp [ctf_trace_create_ops]
      omega
    rw [List.take_of_length_le hlen]
    have h12 := hall 12 (by omega)
    rw [show ctf_trace_create_ops.take 12 = ctf_trace_create_ops from rfl]
      at h12
    exact h12

/-- Concrete instantiation of the C4 theorem at the full sequence: after
all twelve statements the trace is published and fully populated. -/
theorem ctf_trace_create_publish_after_population_witness :
    (run_create (ctf_trace_create_ops.take 12)).published = true ∧
    (run_create (ctf_trace_create_ops.take 12)).fully_populated = true :=
  ⟨by decide, ctf_trace_create_publish_after_population 12 (by decide)⟩

/-! The process-wide trace-id counter. -/

/-- Modulus of the C `uint64_t` arithmetic of the id counter: 2 ^ 64. -/
def u64Mod : Nat := 18446744073709551616

/-- Sanity: `u64Mod` is 2 ^ 64. -/
theorem u64Mod_eq : u64Mod = 2 ^ 64 := by norm_num [u64Mod]

/-- Value of the static counter `last_relay_ctf_trace_id` after `n` trace
creations from process start (it is zero-initialized); each creation
executes `trace->id = ++last_relay_ctf_trace_id` under the counter mutex,
a uint64 pre-increment, so for `n ≥ 1` this is also the id received by the
n-th successfully created trace of the process, regardless of session. -/
def last_relay_ctf_trace_id : Nat → Nat
  | 0 => 0
  | n + 1 => (last_relay_ctf_trace_id n + 1) % u64Mod

/-- Closed form of the counter: after `n` creations it holds `n mod 2^64`. -/
theorem last_relay_ctf_trace_id_eq (n : Nat) :
    last_relay_ctf_trace_id n = n % u64Mod := by
  induction n with
  | zero => rfl
  | succ n ih =>
    rw [last_relay_ctf_trace_id, ih]
    unfold u64Mod
    omega

/-- C6 counterexample: the uint64 counter wraps.  The first created trace
gets id 1; the 2^64-th created trace gets id 0, which is not strictly
greater than 1; and the (2^64 + 1)-th trace repeats id 1, so ids are
neither strictly monotonic nor pairwise distinct over every process
history, contrary to the claim as stated. -/
theorem ctf_trace_id_wraparound_counterexample :
    last_relay_ctf_trace_id 1 = 1 ∧
    last_relay_ctf_trace_id u64Mod = 0 ∧
    ¬ last_relay_ctf_trace_id 1 < last_relay_ctf_trace_id u64Mod ∧
    last_relay_ctf_trace_id (u64Mod + 1) = last_relay_ctf_trace_id 1 := by
  simp only [last_relay_ctf_trace_id_eq]
  unfold u64Mod
  omega

/-- C6 amended: in every process history with fewer than 2^64 creations,
the i-th created trace receives id i, so across the whole process — and
regardless of session — ids are strictly monotonic and pairwise distinct. -/
theorem ctf_trace_id_monotone_below_wrap (i j : Nat) (hi : 0 < i)
    (hij : i < j) (hj : j < u64Mod) :
    last_relay_ctf_trace_id i = i ∧
    last_relay_ctf_trace_id i < last_relay_ctf_trace_id j ∧
    last_relay_ctf_trace_id i ≠ last_relay_ctf_trace_id j := by
  simp only [last_relay_ctf_trace_id_eq]
  unfold u64Mod at *
  omega

/-- Concrete instantiation of the amended C6 theorem at the first two
creations. -/
theorem ctf_trace_id_monotone_below_wrap_witness :
    0 < 1 ∧ 1 < 2 ∧ 2 < u64Mod ∧
    (last_relay_ctf_trace_id 1 = 1 ∧
      last_relay_ctf_trace_id 1 < last_relay_ctf_trace_id 2 ∧
      last_relay_ctf_trace_id 1 ≠ last_relay_ctf_trace_id 2) :=
  ⟨by norm_num, by norm_num, by norm_num [u64Mod],
    ctf_trace_id_monotone_below_wrap 1 2 (by norm_num) (by norm_num)
      (by norm_num [u64Mod])⟩

/-! Error paths of ctf_trace_create and the release-path assertions. -/

/-- The three failure points of `ctf_trace_create`: `zmalloc` failure,
`session_get` failure and `strdup` failure. -/
inductive create_failure where
  | alloc_fail
  | session_get_fail
  | strdup_fail
  deriving DecidableEq, Repr

/-- State of the trace that `ctf_trace_create` hands to `ctf_trace_put` on
each failure path.  On allocation failure no trace exists and no put
happens (the function returns NULL directly).  On session-reference failure
the zero-allocated trace has its refcount initialized to 1 but NULL session
and path; on `strdup` failure the session field is set but the path is
NULL.  On both put-reaching paths the node was never added to the session's
`ctf_traces_ht`. -/
def ctf_trace_create_error_trace (session_id : Nat) :
    create_failure → Option ctf_trace
  | .alloc_fail => none
  | .session_get_fail => some (ctf_trace.mk 0 none none 1 [] none false)
  | .strdup_fail =>
    some (ctf_trace.mk 0 none (some session_id) 1 [] none false)

/-- Conditions required for the release path's assertions to hold when a
put drops the refcount to zero: `ctf_trace_release` dereferences
`trace->session` (must be non-NULL) and asserts that `lttng_ht_del`
succeeds (the node must currently be in the session's table), and
`ctf_trace_destroy` asserts that the stream list is empty. -/
def ctf_trace_release_assertions_hold (t : ctf_trace) : Bool :=
  t.session.isSome && t.node_in_session_ht && t.stream_list.isEmpty

/-- C10 is violated by the code: on both put-reaching failure paths of
`ctf_trace_create` the trace has refcount 1, so the error-path
`ctf_trace_put` drops it to zero and runs `ctf_trace_release`, whose
assertions do not hold: the node was never inserted into the session's
table (so `lttng_ht_del` cannot succeed and `LTTNG_ASSERT(!ret)` fails),
and on the session-reference failure path `trace->session` is NULL when
the release path dereferences it. -/
theorem ctf_trace_create_error_put_violates_release_assertions :
    (ctf_trace_create_error_trace 1 .strdup_fail).map
        (fun t => (t.refcount, t.node_in_session_ht,
          ctf_trace_release_assertions_hold t)) = some (1, false, false) ∧
    (ctf_trace_create_error_trace 1 .session_get_fail).map
        (fun t => (t.refcount, t.session,
          ctf_trace_release_assertions_hold t)) = some (1, none, false) :=
  ⟨rfl, rfl⟩

/-! Viewer session attach / detach protocol (relayd viewer-session unit). -/

/-- The three outcomes of the viewer attach operation
(`lttng_viewer_attach_return_code`): OK, ALREADY and UNK on the wire. -/
inductive viewer_attach_status where
  | ok
  | alreadyAttached
  | unknown
  deriving DecidableEq, Repr

/-- Relay session as observed by the viewer attach protocol: its id, its
reference count, the viewer-attached flag and the current trace chunk
handle (an opaque id, None for NULL). -/
structure relay_session where
  session_id : Nat
  refcount : Nat
  viewer_attached : Bool
  current_trace_chunk : Option Nat
  deriving DecidableEq, Repr

/-- Viewer session (`relay_viewer_session`): the list of attached relay
sessions (their ids) and the viewer's own copy of the current trace chunk
handle. -/
structure viewer_session where
  session_list : List Nat
  current_trace_chunk : Option Nat
  deriving DecidableEq, Repr

/-- The `session_get` acquisition on a relay session:
increment-unless-zero. -/
def session_get (s : relay_session) : Bool × relay_session :=
  let r := urcu_ref_get_unless_zero s.refcount
  (r.1, { s with refcount := r.2 })

/-- The `session_put` release on a relay session, as observed in the
attach and detach scenarios below, where the caller's own reference keeps
the count positive and the release path is never reached. -/
def session_put (s : relay_session) : relay_session :=
  { s with refcount := s.refcount - 1 }

/-- The `viewer_session_set_trace_chunk_copy` helper: it first puts and
clears the viewer session's current chunk unconditionally, succeeds
immediately when the relay session has no current chunk, and otherwise
installs a copy of it.  `lttng_trace_chunk_copy` lives outside the
excerpt, so its possible allocation failure is injected through the
`copy_ok` input; on that failure the helper returns -1 and the viewer
chunk stays cleared. -/
def viewer_session_set_trace_chunk_copy (vsession : viewer_session)
    (relay_session_trace_chunk : Option Nat) (copy_ok : Bool) :
    Int × viewer_session :=
  let vs2 := { vsession with current_trace_chunk := none }
  match relay_session_trace_chunk with
  | none => (0, vs2)
  | some chunk =>
    if copy_ok then (0, { vs2 with current_trace_chunk := some chunk })
    else (-1, vs2)

/-- The `viewer_session_attach` operation, run under the session lock:
acquire a reference on the session (a failure, only possible without the
ownership the caller must guarantee, answers UNK with nothing modified);
answer ALREADY when the viewer-attached flag is already set, putting the
local reference back at the end; otherwise set the flag and copy the
session's current trace chunk into the viewer session — a copy failure
answers UNK, puts the local reference back and leaves the flag set — and
on OK insert the session into the viewer session's list under the list
lock, the reference being transferred to the list. -/
def viewer_session_attach (vsession : viewer_session)
    (session : relay_session) (chunk_copy_ok : Bool) :
    viewer_attach_status × viewer_session × relay_session :=
  let g := session_get session
  if !g.1 then (.unknown, vsession, session)
  else if g.2.viewer_attached then
    (.alreadyAttached, vsession, session_put g.2)
  else
    let s3 := { g.2 with viewer_attached := true }
    let r := viewer_session_set_trace_chunk_copy vsession
      s3.current_trace_chunk chunk_copy_ok
    if r.1 = 0 then
      (.ok,
        { r.2 with session_list := r.2.session_list ++ [s3.session_id] },
        s3)
    else (.unknown, r.2, session_put s3)

/-- The `viewer_session_detach` operation, run under the session lock:
when the viewer-attached flag is not set it fails with -1 and modifies
nothing; otherwise it clears the flag, removes the session from the
viewer session's list under the list lock and releases the reference the
list held.  The viewer session's chunk handle is not touched. -/
def viewer_session_detach (vsession : viewer_session)
    (session : relay_session) :
    Int × viewer_session × relay_session :=
  if !session.viewer_attached then (-1, vsession, session)
  else
    ((0 : Int),
      { vsession with session_list :=
        vsession.session_list.filter (fun i => i ≠ session.session_id) },
      session_put { session with viewer_attached := false })

/-- C8: on a session whose existence the caller guarantees (positive
count), attach with the viewer-attached flag unset returns Ok, sets the
flag, leaves the session-list-owned reference acquired, inserts the
session into the viewer's list and installs a copy of the session's
current chunk; attach on a session whose flag is already set returns
AlreadyAttached and modifies neither the viewer session nor — net of the
internal get/put pair — the session; a failure to copy the session's
current trace chunk returns Unknown with the local reference put back;
detach on an attached session succeeds and clears the flag, after which a
subsequent attach returns Ok again (while detach on an unattached session
fails with -1 and modifies nothing). -/
theorem viewer_session_attach_protocol (vs : viewer_session)
    (s : relay_session) (c : Bool) :
    (s.viewer_attached = false → 0 < s.refcount →
      (viewer_session_attach vs s true).1 = .ok ∧
      (viewer_session_attach vs s true).2.2.viewer_attached = true ∧
      (viewer_session_attach vs s true).2.2.refcount = s.refcount + 1 ∧
      (viewer_session_attach vs s true).2.1.session_list =
        vs.session_list ++ [s.session_id] ∧
      (viewer_session_attach vs s true).2.1.current_trace_chunk =
        s.current_trace_chunk) ∧
    (s.viewer_attached = true → 0 < s.refcount →
      viewer_session_attach vs s c = (.alreadyAttached, vs, s)) ∧
    (s.viewer_attached = false → 0 < s.refcount →
      ∀ chunk, s.current_trace_chunk = some chunk →
      (viewer_session_attach vs s false).1 = .unknown ∧
      (viewer_session_attach vs s false).2.2.refcount = s.refcount ∧
      (viewer_session_attach vs s false).2.1.current_trace_chunk
        = none) ∧
    (s.viewer_attached = false →
      viewer_session_detach vs s = (-1, vs, s)) ∧
    (s.viewer_attached = true → 1 < s.refcount →
      (viewer_session_detach vs s).1 = 0 ∧
      (viewer_session_detach vs s).2.2.viewer_attached = false ∧
      (viewer_session_attach (viewer_session_detach vs s).2.1
        (viewer_session_detach vs s).2.2 true).1 = .ok) := by
  refine ⟨?_, ?_, ?_, ?_, ?_⟩
  · intro h hpos
    have hz : s.refcount ≠ 0 := by omega
    cases hc : s.current_trace_chunk with
    | none =>
      simp [viewer_session_attach, session_get, urcu_ref_get_unless_zero,
        viewer_session_set_trace_chunk_copy, hz, h, hc]
    | some chunk =>
      simp [viewer_session_attach, session_get, urcu_ref_get_unless_zero,
        viewer_session_set_trace_chunk_copy, hz, h, hc]
  · intro h hpos
    have hz : s.refcount ≠ 0 := by omega
    cases s
    simp_all [viewer_session_attach, session_get, urcu_ref_get_unless_zero,
      session_put]
  · intro h hpos chunk hchunk
    have hz : s.refcount ≠ 0 := by omega
    simp [viewer_session_attach, session_get, urcu_ref_get_unless_zero,
      viewer_session_set_trace_chunk_copy, session_put, hz, h, hchunk]
  · intro h
    simp [viewer_session_detach, h]
  · intro h hpos
    have hz2 : s.refcount - 1 ≠ 0 := by omega
    refine ⟨by simp [viewer_session_detach, h], ?_, ?_⟩
    · simp [viewer_session_detach, session_put, h]
    · cases hc : s.current_trace_chunk with
      | none =>
        simp [viewer_session_detach, viewer_session_attach, session_get,
          session_put, urcu_ref_get_unless_zero,
          viewer_session_set_trace_chunk_copy, h, hz2, hc]
      | some chunk =>
        simp [viewer_session_detach, viewer_session_attach, session_get,
          session_put, urcu_ref_get_unless_zero,
          viewer_session_set_trace_chunk_copy, h, hz2, hc]

/-- Concrete instantiation of the C8 theorem, exercising scenario S5: a
fresh session attaches with Ok, a second attach answers AlreadyAttached,
a failed chunk copy answers Unknown, and after detach a further attach
answers Ok. -/
theorem viewer_session_attach_protocol_witness :
    ((relay_session.mk 4 2 false (some 9)).viewer_attached = false ∧
      0 < (relay_session.mk 4 2 false (some 9)).refcount ∧
      (viewer_session_attach (viewer_session.mk [] none)
        (relay_session.mk 4 2 false (some 9)) true).1 = .ok) ∧
    ((relay_session.mk 4 2 true (some 9)).viewer_attached = true ∧
      viewer_session_attach (viewer_session.mk [4] (some 9))
          (relay_session.mk 4 2 true (some 9)) true =
        (.alreadyAttached, viewer_session.mk [4] (some 9),
          relay_session.mk 4 2 true (some 9))) ∧
    (viewer_session_attach (viewer_session.mk [] none)
        (relay_session.mk 4 2 false (some 9)) false).1 = .unknown ∧
    ((viewer_session_detach (viewer_session.mk [4] (some 9))
        (relay_session.mk 4 2 true (some 9))).1 = 0 ∧
      (viewer_session_attach
        (viewer_session_detach (viewer_session.mk [4] (some 9))
          (relay_session.mk 4 2 true (some 9))).2.1
        (viewer_session_detach (viewer_session.mk [4] (some 9))
          (relay_session.mk 4 2 true (some 9))).2.2 true).1 = .ok) :=
  ⟨⟨rfl, by decide,
      ((viewer_session_attach_protocol (viewer_session.mk [] none)
        (relay_session.mk 4 2 false (some 9)) true).1 rfl (by decide)).1⟩,
   ⟨rfl,
      (viewer_session_attach_protocol (viewer_session.mk [4] (some 9))
        (relay_session.mk 4 2 true (some 9)) true).2.1 rfl (by decide)⟩,
   ((viewer_session_attach_protocol (viewer_session.mk [] none)
        (relay_session.mk 4 2 false (some 9)) false).2.2.1 rfl (by decide)
      9 rfl).1,
   ⟨((viewer_session_attach_protocol (viewer_session.mk [4] (some 9))
        (relay_session.mk 4 2 true (some 9)) true).2.2.2.2 rfl
      (by decide)).1,
    ((viewer_session_attach_protocol (viewer_session.mk [4] (some 9))
        (relay_session.mk 4 2 true (some 9)) true).2.2.2.2 rfl
      (by decide)).2.2⟩⟩

/-! Release and destruction lifecycle of a published ctf_trace. -/

/-- Externally visible lifecycle state of one published ctf_trace: its
reference count, how many of those references are held by its relay
streams, whether its node is still in the session's trace table, whether
an RCU free callback has been scheduled by `call_rcu`, and whether the
memory has been freed. -/
structure trace_life_state where
  refcount : Nat
  stream_refs : Nat
  in_table : Bool
  rcu_scheduled : Bool
  freed : Bool
  deriving DecidableEq, Repr

/-- Effect of `ctf_trace_release` followed by `ctf_trace_destroy` when a
put drops the count to zero: the node is synchronously deleted from the
session's table (`lttng_ht_del`) and the actual free is scheduled with
`call_rcu`, to run only after the current grace period ends. -/
def ctf_trace_release_step (s : trace_life_state) : trace_life_state :=
  { s with in_table := false, rcu_scheduled := true }

/-- Events driving a published ctf_trace towards destruction: a relay
stream dropping the reference it holds on the trace, any other holder
dropping a non-stream reference (both through `ctf_trace_put`), and the
end of an RCU grace period, which runs the callbacks scheduled by
`call_rcu`. -/
inductive trace_life_event where
  | streamPut
  | otherPut
  | epochEnd
  deriving DecidableEq, Repr

/-- One lifecycle step.  A put decrements the count (a stream put also
gives up that stream's share, per the specification's rule that each live
RelayStream contributes one reference) and runs `ctf_trace_release`
exactly when the count reaches zero; an epoch end frees the memory iff a
free has been scheduled.  A put without a matching outstanding reference
is a no-op: a correct holder cannot issue it. -/
def trace_life_step (s : trace_life_state) (e : trace_life_event) :
    trace_life_state :=
  match e with
  | .streamPut =>
    if s.stream_refs = 0 then s
    else
      let s2 := { s with stream_refs := s.stream_refs - 1,
                         refcount := s.refcount - 1 }
      if s2.refcount = 0 then ctf_trace_release_step s2 else s2
  | .otherPut =>
    if s.refcount ≤ s.stream_refs then s
    else
      let s2 := { s with refcount := s.refcount - 1 }
      if s2.refcount = 0 then ctf_trace_release_step s2 else s2
  | .epochEnd =>
    if s.rcu_scheduled then { s with rcu_scheduled := false, freed := true }
    else s

/-- Run of the lifecycle machine over a sequence of events. -/
def trace_life_run (s : trace_life_state) (es : List trace_life_event) :
    trace_life_state :=
  es.foldl trace_life_step s

/-- Lifecycle state of a freshly published trace whose `n` streams hold one
reference each and whose other holders (e.g. the creating connection) hold
`k` more. -/
def trace_life_start (n k : Nat) : trace_life_state :=
  ⟨n + k, n, true, false, false⟩

/-- Inductive invariant of the lifecycle machine: stream-held references
never exceed the total count; once teardown has begun (free scheduled or
done) the count is zero, no stream holds a reference and the node is out
of the table; and conversely a zero count means teardown has begun. -/
def trace_life_inv (s : trace_life_state) : Prop :=
  s.stream_refs ≤ s.refcount ∧
  ((s.rcu_scheduled = true ∨ s.freed = true) →
    s.refcount = 0 ∧ s.stream_refs = 0 ∧ s.in_table = false) ∧
  (s.refcount = 0 →
    s.stream_refs = 0 ∧ s.in_table = false ∧
      (s.rcu_scheduled = true ∨ s.freed = true))

/-- The lifecycle invariant is preserved by every step. -/
theorem trace_life_step_inv : ∀ (s : trace_life_state)
    (e : trace_life_event),
    trace_life_inv s → trace_life_inv (trace_life_step s e) := by
  rintro ⟨rc, sr, it, rs, fr⟩ e ⟨h1, h2, h3⟩
  have H1 : sr ≤ rc := h1
  have H2 : rs = true ∨ fr = true → rc = 0 ∧ sr = 0 ∧ it = false := h2
  have H3 : rc = 0 → sr = 0 ∧ it = false ∧ (rs = true ∨ fr = true) := h3
  cases e with
  | streamPut =>
    have hgoal : trace_life_step ⟨rc, sr, it, rs, fr⟩ .streamPut =
        if sr = 0 then ⟨rc, sr, it, rs, fr⟩
        else if rc - 1 = 0 then ⟨rc - 1, sr - 1, false, true, fr⟩
        else ⟨rc - 1, sr - 1, it, rs, fr⟩ := rfl
    rw [hgoal]
    by_cases hz : sr = 0
    · rw [if_pos hz]
      exact ⟨H1, H2, H3⟩
    · rw [if_neg hz]
      by_cases hz2 : rc - 1 = 0
      · rw [if_pos hz2]
        refine ⟨show sr - 1 ≤ rc - 1 by omega,
          fun _ => ⟨hz2, show sr - 1 = 0 by omega, rfl⟩,
          fun _ => ⟨show sr - 1 = 0 by omega, rfl, Or.inl rfl⟩⟩
      · rw [if_neg hz2]
        refine ⟨show sr - 1 ≤ rc - 1 by omega, ?_,
          fun h0 => absurd h0 hz2⟩
        intro hor
        exact absurd (H2 hor).2.1 hz
  | otherPut =>
    have hgoal : trace_life_step ⟨rc, sr, it, rs, fr⟩ .otherPut =
        if rc ≤ sr then ⟨rc, sr, it, rs, fr⟩
        else if rc - 1 = 0 then ⟨rc - 1, sr, false, true, fr⟩
        else ⟨rc - 1, sr, it, rs, fr⟩ := rfl
    rw [hgoal]
    by_cases hle : rc ≤ sr
    · rw [if_pos hle]
      exact ⟨H1, H2, H3⟩
    · rw [if_neg hle]
      by_cases hz2 : rc - 1 = 0
      · rw [if_pos hz2]
        refine ⟨show sr ≤ rc - 1 by omega,
          fun _ => ⟨hz2, show sr = 0 by omega, rfl⟩,
          fun _ => ⟨show sr = 0 by omega, rfl, Or.inl rfl⟩⟩
      · rw [if_neg hz2]
        refine ⟨show sr ≤ rc - 1 by omega, ?_,
          fun h0 => absurd h0 hz2⟩
        intro hor
        exact absurd (H2 hor).1 (by omega)
  | epochEnd =>
    have hgoal : trace_life_step ⟨rc, sr, it, rs, fr⟩ .epochEnd =
        if rs = true then ⟨rc, sr, it, false, true⟩
        else ⟨rc, sr, it, rs, fr⟩ := rfl
    rw [hgoal]
    by_cases hrs : rs = true
    · rw [if_pos hrs]
      obtain ⟨ha, hb, hc⟩ := H2 (Or.inl hrs)
      exact ⟨H1, fun _ => ⟨ha, hb, hc⟩, fun _ => ⟨hb, hc, Or.inr rfl⟩⟩
    · rw [if_neg hrs]
      exact ⟨H1, H2, H3⟩

/-- The lifecycle invariant holds after any run from an invariant state. -/
theorem trace_life_run_inv (s : trace_life_state)
    (es : List trace_life_event) (h : trace_life_inv s) :
    trace_life_inv (trace_life_run s es) := by
  induction es generalizing s with
  | nil => exact h
  | cons e es ih => exact ih (trace_life_step s e) (trace_life_step_inv s e h)

/-- The only step that frees the memory is an epoch end finding a
scheduled free. -/
theorem trace_life_step_freed (s : trace_life_state) (e : trace_life_event)
    (h0 : s.freed = false) (h1 : (trace_life_step s e).freed = true) :
    e = .epochEnd ∧ s.rcu_scheduled = true := by
  cases e <;>
    simp_all only [trace_life_step, ctf_trace_release_step] <;>
    split_ifs at h1 <;> simp_all

/-- In every run of the lifecycle machine that ends freed, the event list
splits around the epoch end that performed the free, and at that point the
object was already scheduled, out of the table, with no stream references
and a zero count. -/
theorem trace_life_freed_split : ∀ (es : List trace_life_event)
    (s : trace_life_state), trace_life_inv s → s.freed = false →
    (trace_life_run s es).freed = true →
    ∃ es1 es2, es = es1 ++ trace_life_event.epochEnd :: es2 ∧
      (trace_life_run s es1).freed = false ∧
      (trace_life_run s es1).rcu_scheduled = true ∧
      (trace_life_run s es1).in_table = false ∧
      (trace_life_run s es1).stream_refs = 0 ∧
      (trace_life_run s es1).refcount = 0 := by
  intro es
  induction es with
  | nil =>
    intro s _ h0 hf
    rw [trace_life_run, List.foldl_nil] at hf
    rw [h0] at hf
    exact absurd hf (by simp)
  | cons e es ih =>
    intro s hinv h0 hf
    have hstep : trace_life_run s (e :: es) =
        trace_life_run (trace_life_step s e) es := rfl
    by_cases hf1 : (trace_life_step s e).freed = true
    · obtain ⟨he, hrcu⟩ := trace_life_step_freed s e h0 hf1
      obtain ⟨hrc, hsr, hit⟩ := hinv.2.1 (Or.inl hrcu)
      subst he
      exact ⟨[], es, rfl, h0, hrcu, hit, hsr, hrc⟩
    · have h0x : (trace_life_step s e).freed = false :=
        Bool.eq_false_iff.mpr hf1
      obtain ⟨es1, es2, heq, hA, hB, hC, hD, hE⟩ :=
        ih (trace_life_step s e) (trace_life_step_inv s e hinv) h0x
          (by rw [hstep] at hf; exact hf)
      exact ⟨e :: es1, es2, by simp [heq], hA, hB, hC, hD, hE⟩

/-- C2: for every published trace with `n` stream-held references and `k`
other references (at least one reference in total), in every event
sequence after which the trace's memory is freed: at every point of the
run where the count is zero the node is already out of the session's table
(removal is synchronous with the count reaching zero), the final state is
out of the table with no stream references, and the run splits around an
epoch-end event — the free happens strictly after a grace period that
began when the count reached zero, at which point all streams had already
released their references and the node had been removed. -/
theorem ctf_trace_release_after_streams_and_epoch (n k : Nat)
    (hpos : 0 < n + k) (es : List trace_life_event)
    (hfreed : (trace_life_run (trace_life_start n k) es).freed = true) :
    (∀ m, (trace_life_run (trace_life_start n k) (es.take m)).refcount = 0 →
      (trace_life_run (trace_life_start n k) (es.take m)).in_table
        = false) ∧
    (trace_life_run (trace_life_start n k) es).in_table = false ∧
    (trace_life_run (trace_life_start n k) es).stream_refs = 0 ∧
    (trace_life_run (trace_life_start n k) es).refcount = 0 ∧
    ∃ es1 es2, es = es1 ++ trace_life_event.epochEnd :: es2 ∧
      (trace_life_run (trace_life_start n k) es1).freed = false ∧
      (trace_life_run (trace_life_start n k) es1).rcu_scheduled = true ∧
      (trace_life_run (trace_life_start n k) es1).in_table = false ∧
      (trace_life_run (trace_life_start n k) es1).stream_refs = 0 ∧
      (trace_life_run (trace_life_start n k) es1).refcount = 0 := by
  have hinv0 : trace_life_inv (trace_life_start n k) := by
    refine ⟨Nat.le_add_right n k, ?_, ?_⟩
    · rintro (h | h) <;> simp [trace_life_start] at h
    · intro h0
      simp only [trace_life_start] at h0
      exact absurd h0 (by omega)
  have hfin := trace_life_run_inv (trace_life_start n k) es hinv0
  obtain ⟨hrc, hsr, hit⟩ := hfin.2.1 (Or.inr hfreed)
  refine ⟨?_, hit, hsr, hrc, ?_⟩
  · intro m h0
    exact ((trace_life_run_inv (trace_life_start n k) (es.take m)
      hinv0).2.2 h0).2.1
  · exact trace_life_freed_split es (trace_life_start n k) hinv0 rfl hfreed

/-- Concrete instantiation of the C2 theorem: one stream reference, the
stream puts it back and an epoch then ends; the trace ends freed, out of
the table, and with no stream references. -/
theorem ctf_trace_release_after_streams_and_epoch_witness :
    0 < 1 + 0 ∧
    (trace_life_run (trace_life_start 1 0)
      [trace_life_event.streamPut, trace_life_event.epochEnd]).freed
        = true ∧
    (trace_life_run (trace_life_start 1 0)
      [trace_life_event.streamPut, trace_life_event.epochEnd]).in_table
        = false ∧
    (trace_life_run (trace_life_start 1 0)
      [trace_life_event.streamPut, trace_life_event.epochEnd]).stream_refs
        = 0 :=
  ⟨by decide, by decide,
    (ctf_trace_release_after_streams_and_epoch 1 0 (by decide)
      [trace_life_event.streamPut, trace_life_event.epochEnd]
      (by decide)).2.1,
    (ctf_trace_release_after_streams_and_epoch 1 0 (by decide)
      [trace_life_event.streamPut, trace_life_event.epochEnd]
      (by decide)).2.2.1⟩

/-! Lookup-or-create over a session's trace table. -/

/-- Session state seen by `ctf_trace_get_by_path_or_create`: the
`ctf_traces_ht` contents in insertion order (the RCU hash table does not
enforce key uniqueness, since publication uses `lttng_ht_add_str` rather
than an add-unique), the reference count of every allocated trace keyed by
trace id, the process-wide id counter, and the number of traces created so
far. -/
structure relayd_session_state where
  ctf_traces_ht : List (String × Nat)
  trace_refs : List (Nat × Nat)
  last_trace_id : Nat
  created : Nat
  deriving DecidableEq, Repr

/-- Session state of a fresh session on a fresh process. -/
def relayd_session_state.empty : relayd_session_state := ⟨[], [], 0, 0⟩

/-- The `lttng_ht_lookup` plus `lttng_ht_iter_get_node_str` pair over the
session's trace table: the first entry with the requested path, if any. -/
def lttng_ht_lookup_str (ht : List (String × Nat)) (subpath : String) :
    Option Nat :=
  (ht.find? (fun e => e.1 == subpath)).map (fun e => e.2)

/-- Reference count currently stored for a trace id (0 when the id is
unknown to the session). -/
def trace_ref_of (s : relayd_session_state) (tid : Nat) : Nat :=
  (List.lookup tid s.trace_refs).getD 0

/-- Increment the stored reference count of a trace id (the effect of a
successful `urcu_ref_get_unless_zero` through the looked-up pointer). -/
def bump_trace_ref (refs : List (Nat × Nat)) (tid : Nat) :
    List (Nat × Nat) :=
  refs.map (fun e => if e.1 == tid then (e.1, e.2 + 1) else e)

/-- The success path of `ctf_trace_create` at session level: allocate a
trace with refcount 1 and a fresh id from the mutex-guarded uint64
counter, and publish it unconditionally into the session's table with
`lttng_ht_add_str` — the function performs no re-check of the table and
takes no writer lock on it. -/
def ctf_trace_create_st (s : relayd_session_state) (subpath : String) :
    Nat × relayd_session_state :=
  let tid := (s.last_trace_id + 1) % u64Mod
  (tid,
    { ctf_traces_ht := s.ctf_traces_ht ++ [(subpath, tid)],
      trace_refs := s.trace_refs ++ [(tid, 1)],
      last_trace_id := tid,
      created := s.created + 1 })

/-- The `ctf_trace_get_by_path_or_create` call, executed without
interleaving (one atomic call): look the subpath up under the RCU read
lock; when an entry is found and `ctf_trace_get` succeeds, return it with
its count incremented; when the lookup misses or the found trace's count
is already zero, fall through to `ctf_trace_create`. -/
def ctf_trace_get_by_path_or_create (s : relayd_session_state)
    (subpath : String) : Nat × relayd_session_state :=
  match lttng_ht_lookup_str s.ctf_traces_ht subpath with
  | some tid =>
    if trace_ref_of s tid = 0 then ctf_trace_create_st s subpath
    else (tid, { s with trace_refs := bump_trace_ref s.trace_refs tid })
  | none => ctf_trace_create_st s subpath

/-- Control state of one thread executing
`ctf_trace_get_by_path_or_create`: before its lookup block, past a failed
lookup and about to create, or finished with a resulting trace id. -/
inductive lookup_or_create_pc where
  | start
  | needCreate
  | done (tid : Nat)
  deriving DecidableEq, Repr

/-- One atomic block of a thread running the lookup-or-create.  From
`start` the thread performs the RCU lookup plus try-acquire: it finishes
with the found trace when that trace's count is positive, and otherwise —
a miss, or a found trace already at count zero — proceeds to creation.
From `needCreate` it runs `ctf_trace_create`, which publishes
unconditionally and re-checks nothing. -/
def lookup_or_create_step (s : relayd_session_state)
    (pc : lookup_or_create_pc) (subpath : String) :
    relayd_session_state × lookup_or_create_pc :=
  match pc with
  | .start =>
    match lttng_ht_lookup_str s.ctf_traces_ht subpath with
    | some tid =>
      if trace_ref_of s tid = 0 then (s, .needCreate)
      else ({ s with trace_refs := bump_trace_ref s.trace_refs tid },
        .done tid)
    | none => (s, .needCreate)
  | .needCreate =>
    let r := ctf_trace_create_st s subpath
    (r.2, .done r.1)
  | .done tid => (s, .done tid)

/-- Interleaved execution of two threads calling lookup-or-create on the
same session and subpath; the schedule lists which thread performs its
next atomic block (true for the first thread). -/
def lookup_or_create_run2 (s : relayd_session_state)
    (pc1 pc2 : lookup_or_create_pc) (subpath : String) :
    List Bool →
      relayd_session_state × lookup_or_create_pc × lookup_or_create_pc
  | [] => (s, pc1, pc2)
  | b :: sched =>
    if b then
      let r := lookup_or_create_step s pc1 subpath
      lookup_or_create_run2 r.1 r.2 pc2 subpath sched
    else
      let r := lookup_or_create_step s pc2 subpath
      lookup_or_create_run2 r.1 pc1 r.2 subpath sched

/-- Subpath used by the concrete racing execution (scenario S6's path). -/
def race_subpath : String := "ust/uid/1000/64-bit"

/-- C1 counterexample: on a fresh session, the interleaving lookup(1),
lookup(2), create(1), create(2) of two concurrent
`ctf_trace_get_by_path_or_create(session, subpath)` calls makes both
callers miss and both create: two CTFTrace objects are created (ids 1 and
2), both are published in the session's table under the same subpath, and
the two callers return references to different objects — the caller that
loses the race performs no re-check under a writer lock, does not discard
its object and does not return the winner, contrary to the claim. -/
theorem ctf_trace_get_by_path_or_create_race_counterexample :
    (lookup_or_create_run2 relayd_session_state.empty .start .start
        race_subpath [true, false, true, false]).2 =
      (.done 1, .done 2) ∧
    ¬ (lookup_or_create_run2 relayd_session_state.empty .start .start
        race_subpath [true, false, true, false]).2.1 =
      (lookup_or_create_run2 relayd_session_state.empty .start .start
        race_subpath [true, false, true, false]).2.2 ∧
    (lookup_or_create_run2 relayd_session_state.empty .start .start
        race_subpath [true, false, true, false]).1.created = 2 ∧
    (lookup_or_create_run2 relayd_session_state.empty .start .start
        race_subpath [true, false, true, false]).1.ctf_traces_ht =
      [(race_subpath, 1), (race_subpath, 2)] := by
  refine ⟨rfl, by decide, rfl, rfl⟩

/-- A lookup that misses still misses the prefix after a fresh entry is
appended, and then finds that entry. -/
theorem lttng_ht_lookup_str_append_self (ht : List (String × Nat))
    (subpath : String) (tid : Nat)
    (h : lttng_ht_lookup_str ht subpath = none) :
    lttng_ht_lookup_str (ht ++ [(subpath, tid)]) subpath = some tid := by
  induction ht with
  | nil => simp [lttng_ht_lookup_str, List.find?]
  | cons e l ih =>
    cases hc : (e.1 == subpath) with
    | true => simp [lttng_ht_lookup_str, List.find?, hc] at h
    | false =>
      simp only [lttng_ht_lookup_str, List.cons_append, List.find?, hc]
        at h ⊢
      exact ih h

/-- Association lookup skips a prefix in which the key does not occur. -/
theorem lookup_append_of_none (l1 l2 : List (Nat × Nat)) (tid : Nat)
    (h : List.lookup tid l1 = none) :
    List.lookup tid (l1 ++ l2) = List.lookup tid l2 := by
  induction l1 with
  | nil => rfl
  | cons e l ih =>
    rcases e with ⟨k, v⟩
    cases hc : (tid == k) with
    | true => simp [List.lookup, hc] at h
    | false =>
      simp only [List.lookup, List.cons_append, hc] at h ⊢
      exact ih h

/-- Bumping a trace id's stored count increments exactly that id's
association. -/
theorem lookup_bump (refs : List (Nat × Nat)) (tid : Nat) :
    List.lookup tid (bump_trace_ref refs tid) =
      (List.lookup tid refs).map (fun v => v + 1) := by
  induction refs with
  | nil => rfl
  | cons e l ih =>
    rcases e with ⟨k, v⟩
    by_cases hk : k = tid
    · subst hk
      have hb : bump_trace_ref ((k, v) :: l) k =
          (k, v + 1) :: bump_trace_ref l k := by
        simp [bump_trace_ref]
      have h1 : List.lookup k ((k, v + 1) :: bump_trace_ref l k) =
          some (v + 1) := by
        simp [List.lookup]
      have h2 : List.lookup k ((k, v) :: l) = some v := by
        simp [List.lookup]
      rw [hb, h1, h2]
      rfl
    · have hc2 : (tid == k) = false := by
        simp
        exact fun he => hk he.symm
      have hb : bump_trace_ref ((k, v) :: l) tid =
          (k, v) :: bump_trace_ref l tid := by
        simp [bump_trace_ref, hk]
      have h1 : List.lookup tid ((k, v) :: bump_trace_ref l tid) =
          List.lookup tid (bump_trace_ref l tid) := by
        simp [List.lookup, hc2]
      have h2 : List.lookup tid ((k, v) :: l) = List.lookup tid l := by
        simp [List.lookup, hc2]
      rw [hb, h1, h2, ih]

/-- A positive stored count stays positive across a bump of the same
id. -/
theorem trace_ref_of_bump_pos (s : relayd_session_state) (tid : Nat)
    (h : 0 < trace_ref_of s tid) :
    0 < trace_ref_of
      { s with trace_refs := bump_trace_ref s.trace_refs tid } tid := by
  simp only [trace_ref_of] at h ⊢
  rw [lookup_bump]
  cases ho : List.lookup tid s.trace_refs with
  | none => rw [ho] at h; simp at h
  | some v => simp

/-- A serialized `ctf_trace_get_by_path_or_create` call that finds a trace
with a positive count returns that trace with its count incremented and
changes nothing else. -/
theorem ctf_trace_get_by_path_or_create_found (s : relayd_session_state)
    (subpath : String) (tid : Nat)
    (hfound : lttng_ht_lookup_str s.ctf_traces_ht subpath = some tid)
    (href : 0 < trace_ref_of s tid) :
    ctf_trace_get_by_path_or_create s subpath =
      (tid, { s with trace_refs := bump_trace_ref s.trace_refs tid }) := by
  have hnz : ¬ trace_ref_of s tid = 0 := by omega
  simp [ctf_trace_get_by_path_or_create, hfound, hnz]

/-- Repeated serialized calls of `ctf_trace_get_by_path_or_create` on the
same session and subpath. -/
def ctf_trace_get_by_path_or_create_iter (subpath : String) :
    Nat → relayd_session_state → List Nat × relayd_session_state
  | 0, s => ([], s)
  | n + 1, s =>
    let r := ctf_trace_get_by_path_or_create s subpath
    let rest := ctf_trace_get_by_path_or_create_iter subpath n r.2
    (r.1 :: rest.1, rest.2)

/-- Once the subpath maps to a trace with a positive count, any number of
further serialized calls return that same trace and create nothing. -/
theorem ctf_trace_get_by_path_or_create_iter_found (subpath : String) :
    ∀ (n : Nat) (s : relayd_session_state) (tid : Nat),
      lttng_ht_lookup_str s.ctf_traces_ht subpath = some tid →
      0 < trace_ref_of s tid →
      (ctf_trace_get_by_path_or_create_iter subpath n s).1 =
        List.replicate n tid ∧
      (ctf_trace_get_by_path_or_create_iter subpath n s).2.created =
        s.created := by
  intro n
  induction n with
  | zero => intro s tid _ _; exact ⟨rfl, rfl⟩
  | succ n ih =>
    intro s tid hfound href
    have hcall := ctf_trace_get_by_path_or_create_found s subpath tid
      hfound href
    have h2f : lttng_ht_lookup_str ({ s with trace_refs := bump_trace_ref s.trace_refs tid }).ctf_traces_ht subpath = some tid := hfound
    have h2r := trace_ref_of_bump_pos s tid href
    obtain ⟨hA, hB⟩ := ih
      { s with trace_refs := bump_trace_ref s.trace_refs tid } tid h2f h2r
    constructor
    · simp only [ctf_trace_get_by_path_or_create_iter, hcall]
      simp [hA, List.replicate]
    · simp only [ctf_trace_get_by_path_or_create_iter, hcall]
      exact hB

/-- C1 amended: without interleaving, creation is exactly-once.  On a
session state in which the subpath is absent from the table and the next
trace id is fresh, a serialized `ctf_trace_get_by_path_or_create` call
creates and publishes one trace, and every further serialized call on the
same (session, subpath) returns a reference to that same trace while
creating nothing — but this holds only for serialized calls, since the
code re-checks nothing under a writer lock (see the racing
counterexample). -/
theorem ctf_trace_get_by_path_or_create_sequential
    (s : relayd_session_state) (subpath : String) (n : Nat)
    (hmiss : lttng_ht_lookup_str s.ctf_traces_ht subpath = none)
    (hfresh : List.lookup ((s.last_trace_id + 1) % u64Mod) s.trace_refs
      = none) :
    (ctf_trace_get_by_path_or_create s subpath).1 =
      (s.last_trace_id + 1) % u64Mod ∧
    (ctf_trace_get_by_path_or_create s subpath).2.created =
      s.created + 1 ∧
    (ctf_trace_get_by_path_or_create_iter subpath n
        (ctf_trace_get_by_path_or_create s subpath).2).1 =
      List.replicate n ((ctf_trace_get_by_path_or_create s subpath).1) ∧
    (ctf_trace_get_by_path_or_create_iter subpath n
        (ctf_trace_get_by_path_or_create s subpath).2).2.created =
      s.created + 1 := by
  have hcall : ctf_trace_get_by_path_or_create s subpath =
      ctf_trace_create_st s subpath := by
    unfold ctf_trace_get_by_path_or_create
    rw [hmiss]
  have hfound1 : lttng_ht_lookup_str
      (ctf_trace_create_st s subpath).2.ctf_traces_ht subpath =
      some ((ctf_trace_create_st s subpath).1) :=
    lttng_ht_lookup_str_append_self s.ctf_traces_ht subpath _ hmiss
  have href1 : 0 < trace_ref_of (ctf_trace_create_st s subpath).2
      ((ctf_trace_create_st s subpath).1) := by
    show 0 < (List.lookup ((s.last_trace_id + 1) % u64Mod)
      (s.trace_refs ++ [((s.last_trace_id + 1) % u64Mod, 1)])).getD 0
    rw [lookup_append_of_none _ _ _ hfresh]
    simp [List.lookup]
  obtain ⟨hA, hB⟩ := ctf_trace_get_by_path_or_create_iter_found subpath n
    (ctf_trace_create_st s subpath).2 ((ctf_trace_create_st s subpath).1)
    hfound1 href1
  refine ⟨?_, ?_, ?_, ?_⟩
  · rw [hcall]
    rfl
  · rw [hcall]
    rfl
  · rw [hcall]
    exact hA
  · rw [hcall]
    exact hB

/-- Concrete instantiation of the amended C1 theorem: on a fresh session,
one call creates trace 1 and two further serialized calls both return
trace 1 without creating anything. -/
theorem ctf_trace_get_by_path_or_create_sequential_witness :
    lttng_ht_lookup_str relayd_session_state.empty.ctf_traces_ht
      race_subpath = none ∧
    List.lookup ((relayd_session_state.empty.last_trace_id + 1) % u64Mod)
      relayd_session_state.empty.trace_refs = none ∧
    (ctf_trace_get_by_path_or_create relayd_session_state.empty
      race_subpath).2.created = 0 + 1 ∧
    (ctf_trace_get_by_path_or_create_iter race_subpath 2
        (ctf_trace_get_by_path_or_create relayd_session_state.empty
          race_subpath).2).1 =
      List.replicate 2 ((ctf_trace_get_by_path_or_create
        relayd_session_state.empty race_subpath).1) ∧
    (ctf_trace_get_by_path_or_create_iter race_subpath 2
        (ctf_trace_get_by_path_or_create relayd_session_state.empty
          race_subpath).2).2.created = 0 + 1 :=
  ⟨rfl, rfl,
    (ctf_trace_get_by_path_or_create_sequential relayd_session_state.empty
      race_subpath 2 rfl rfl).2.1,
    (ctf_trace_get_by_path_or_create_sequential relayd_session_state.empty
      race_subpath 2 rfl rfl).2.2.1,
    (ctf_trace_get_by_path_or_create_sequential relayd_session_state.empty
      race_subpath 2 rfl rfl).2.2.2⟩
